import Mathlib

/-!
Verification of the experiment_launcher repository (src/experiment_launcher/launcher.py)
against its natural-language specification.

The Python code is shallowly embedded: scalar parameter values become the
inductive `Value`; Python insertion-ordered dicts become association lists
(`Dict`) with `dictSet`/`dictUpdate` mirroring dict assignment and
`dict.update`; filesystem paths are lists of segments joined by `/`;
side effects of dispatch become an explicit `Effect` trace; the host
environment probed by `os.getenv`/`os.path.isdir`/`os.path.exists` is the
explicit `HostEnv` record; fallible code (assertions, raised exceptions,
library errors) returns `Option`.  The randomness of `np.random.choice`
is modelled by a deterministic sampler over an explicit entropy stream.
-/

/-- Scalar parameter values accepted by the launcher (int, bool, str). -/
inductive Value where
  | vInt : Int → Value
  | vBool : Bool → Value
  | vStr : String → Value
deriving DecidableEq

/-- Python str() of a scalar value. -/
def Value.pyStr : Value → String
  | .vInt n => toString n
  | .vBool b => if b then "True" else "False"
  | .vStr s => s

/-- Python repr() of a scalar value, as used inside str() of a dict. -/
def Value.pyRepr : Value → String
  | .vStr s => "\x27" ++ s ++ "\x27"
  | v => v.pyStr

/-- Insertion-ordered string-keyed mapping: the model of a Python dict. -/
abbrev Dict := List (String × Value)

/-- Lookup of a key (first occurrence; dicts built by dictSet have unique keys). -/
def dictGet? : Dict → String → Option Value
  | [], _ => none
  | p :: rest, k => if p.1 = k then some p.2 else dictGet? rest k

/-- Python dict assignment d[k] = v: replace in place when the key exists,
append at the end otherwise. -/
def dictSet (d : Dict) (k : String) (v : Value) : Dict :=
  if (dictGet? d k).isSome then d.map (fun p => if p.1 = k then (k, v) else p)
  else d ++ [(k, v)]

/-- Python dict.update: fold assignment over the entries of the other dict. -/
def dictUpdate (d other : Dict) : Dict :=
  other.foldl (fun acc p => dictSet acc p.1 p.2) d

/-- Value of the last entry carrying a key, used to describe dictUpdate. -/
def lastGet? : Dict → String → Option Value
  | [], _ => none
  | p :: rest, k =>
      match lastGet? rest k with
      | some v => some v
      | none => if p.1 = k then some p.2 else none

/-- Two dicts are equivalent when every lookup agrees. -/
def dictEquiv (d₁ d₂ : Dict) : Prop := ∀ k, dictGet? d₁ k = dictGet? d₂ k

/-- Lookup agreement outside a set of exempt keys. -/
def dictEquivExcept (ks : List String) (d₁ d₂ : Dict) : Prop :=
  ∀ k, k ∉ ks → dictGet? d₁ k = dictGet? d₂ k

/-- Python str.replace worker over character lists (all occurrences, left to
right).  The fuel argument, instantiated with the length of the scanned list,
only bounds the recursion: every step consumes at least one character, so the
initial fuel is never exhausted. -/
def replaceGo (pat rep : List Char) : Nat → List Char → List Char
  | _, [] => []
  | 0, s => s
  | Nat.succ fuel, c :: rest =>
      if (c :: rest).take pat.length = pat then
        rep ++ replaceGo pat rep fuel (rest.drop (pat.length - 1))
      else
        c :: replaceGo pat rep fuel rest

/-- Python str.replace on strings. -/
def pyReplace (s pat rep : String) : String :=
  ⟨replaceGo pat.data rep.data s.data.length s.data⟩

/-- Python str() of a dict of scalar values. -/
def pyStrDict (d : Dict) : String :=
  "\x7b" ++ String.intercalate ", " (d.map (fun p => "\x27" ++ p.1 ++ "\x27: " ++ p.2.pyRepr)) ++ "\x7d"

/-- The os.path.join chain: paths are segment lists rendered with slashes. -/
def joinPath (segs : List String) : String := String.intercalate "/" segs

/-- List element access with a default, used to state indexed properties. -/
def nthD {α : Type} : List α → Nat → α → α
  | [], _, d => d
  | a :: _, 0, _ => a
  | _ :: t, Nat.succ n, d => nthD t n d

/-- itertools.product over two lists, first component outermost. -/
def pyProduct {α β : Type} : List α → List β → List (α × β)
  | [], _ => []
  | x :: rest, ys => ys.map (fun y => (x, y)) ++ pyProduct rest ys

/-- Host facts probed by the constructor and script generator: the USER
environment variable, the timestamp suffix produced by datetime.now().strftime,
and the directory-existence checks of os.path.isdir / os.path.exists. -/
structure HostEnv where
  user : String
  now : String
  scratch_is_dir : Bool
  miniconda3_exists : Bool
  anaconda3_exists : Bool
deriving DecidableEq

/-- Python truthiness of an optional string (None and the empty string are falsy). -/
def pyTruthy : Option String → Bool
  | none => false
  | some s => !s.isEmpty

/-- Launcher._to_duration (launcher.py lines 291-297). -/
def to_duration (days hours minutes seconds : Nat) : String :=
  let h := if hours < 10 then "0" ++ Nat.repr hours else Nat.repr hours
  let m := if minutes < 10 then "0" ++ Nat.repr minutes else Nat.repr minutes
  let s := if seconds < 10 then "0" ++ Nat.repr seconds else Nat.repr seconds
  Nat.repr days ++ "-" ++ h ++ ":" ++ m ++ ":" ++ s

/-- Two-digit zero padding, the per-field format the spec ascribes to
the duration string. -/
def pad2 (n : Nat) : String :=
  if n < 10 then "0" ++ Nat.repr n else Nat.repr n

/-- Arguments of Launcher.__init__ with their source defaults
(launcher.py lines 20-23). -/
structure LauncherArgs where
  exp_name : String
  python_file : String
  n_exp : Nat
  n_cores : Nat := 1
  memory : Nat := 2000
  days : Nat := 0
  hours : Nat := 24
  minutes : Nat := 0
  seconds : Nat := 0
  project_name : Option String := none
  base_dir : Option String := none
  joblib_n_jobs : Option Nat := none
  conda_env : Option String := none
  gres : Option String := none
  partition : Option String := none
  begin_ : Option String := none
  use_timestamp : Bool := false
  use_underscore_argparse : Bool := false
  randomize_seeds : Bool := false
  max_seeds : Nat := 10000

/-- The state stored on a Launcher instance by __init__ (launcher.py lines 51-88).
The joblib_n_jobs field keeps the Python attribute type int-or-None, although
after __init__ it is always an int. -/
structure Launcher where
  exp_name : String
  python_file : String
  n_exp : Nat
  n_cores : Nat
  memory : Nat
  duration : String
  project_name : Option String
  joblib_n_jobs : Option Nat
  conda_env : Option String
  gres : Option String
  partition : Option String
  begin_ : Option String
  experiment_list : List Dict
  default_params : Dict
  exp_dir_local : List String
  exp_dir_slurm : List String
  use_underscore_argparse : Bool
  max_seeds : Nat
  randomize_seeds : Bool

/-- Launcher.__init__ (launcher.py lines 20-88).  The assert at line 58
rejects joblib_n_jobs == 0; a None joblib_n_jobs is stored as 1 (lines 59-61);
a timestamp is appended to the experiment name when requested (lines 70-71);
the slurm directory falls back to the local one when no scratch directory
exists (lines 76-80); max_seeds is raised to n_exp + 1 when n_exp >= max_seeds
(lines 84-87). -/
def Launcher.init (a : LauncherArgs) (env : HostEnv) : Option Launcher :=
  if a.joblib_n_jobs = some 0 then none
  else
    let exp_name := if a.use_timestamp then a.exp_name ++ env.now else a.exp_name
    let base_dir := match a.base_dir with | none => "./logs" | some b => b
    let exp_dir_local := [base_dir, exp_name]
    let exp_dir_slurm :=
      if env.scratch_is_dir then ["/work", "scratch", env.user, exp_name] else exp_dir_local
    some
      { exp_name := exp_name
        python_file := a.python_file
        n_exp := a.n_exp
        n_cores := a.n_cores
        memory := a.memory
        duration := to_duration a.days a.hours a.minutes a.seconds
        project_name := a.project_name
        joblib_n_jobs := some (match a.joblib_n_jobs with | none => 1 | some j => j)
        conda_env := a.conda_env
        gres := a.gres
        partition := a.partition
        begin_ := a.begin_
        experiment_list := []
        default_params := []
        exp_dir_local := exp_dir_local
        exp_dir_slurm := exp_dir_slurm
        use_underscore_argparse := a.use_underscore_argparse
        max_seeds := if a.n_exp ≥ a.max_seeds then a.n_exp + 1 else a.max_seeds
        randomize_seeds := a.randomize_seeds }

/-- Launcher.add_experiment (launcher.py lines 90-91). -/
def Launcher.add_experiment (L : Launcher) (kwargs : Dict) : Launcher :=
  { L with experiment_list := L.experiment_list ++ [kwargs] }

/-- Launcher.add_default_params (launcher.py lines 93-94). -/
def Launcher.add_default_params (L : Launcher) (kwargs : Dict) : Launcher :=
  { L with default_params := dictUpdate L.default_params kwargs }

/-- Launcher._generate_results_dir (launcher.py lines 248-257): one nested
path segment "key_value" per record entry in insertion order, then an
optional seed segment. -/
def generate_results_dir (results_dir : List String) (exp : Dict) (seed : Option Nat) : List String :=
  let r := exp.foldl (fun acc p => acc ++ [p.1 ++ "_" ++ p.2.pyStr]) results_dir
  match seed with
  | some s => r ++ [Nat.repr s]
  | none => r

/-- Modelled from the spec: the flat-mode result path the specification
describes (all "key_value" pairs underscore-joined into one trailing
segment, selected by a configuration flag).  No such mode or flag exists
anywhere in the source; this definition only serves to compare the
described behaviour with the implemented one. -/
def generateResultPath_flat (results_dir : List String) (exp : Dict) : List String :=
  results_dir ++ [String.intercalate "_" (exp.map (fun p => p.1 ++ "_" ++ p.2.pyStr))]

/-- Launcher._convert_to_command_line (launcher.py lines 273-289). -/
def convert_to_command_line (exp : Dict) (use_underscore_argparse : Bool) : String :=
  exp.foldl
    (fun command_line p =>
      let new_command :=
        if use_underscore_argparse then "--" ++ p.1 ++ " "
        else "--" ++ pyReplace p.1 "_" "-" ++ " "
      let new_command :=
        match p.2 with
        | .vBool b => if b then new_command else ""
        | v => new_command ++ v.pyStr ++ " "
      command_line ++ new_command)
    ""

/-- The token list one record entry contributes to the command line,
stated as the claim words it: nothing for False, a bare flag for True,
flag then value otherwise, with underscores dashed unless the
underscore-argparse flag is set. -/
def flag_tokens (use_underscore_argparse : Bool) (p : String × Value) : List String :=
  let key := if use_underscore_argparse then p.1 else pyReplace p.1 "_" "-"
  match p.2 with
  | .vBool b => if b then ["--" ++ key] else []
  | v => ["--" ++ key, v.pyStr]

/-- The whole serialized flag string as the claim describes it: every token
of every entry, in insertion order, each followed by a space. -/
def flags_spec (use_underscore_argparse : Bool) (exp : Dict) : String :=
  (((exp.map (flag_tokens use_underscore_argparse)).flatten).map (fun t => t ++ " ")).foldr
    (fun a b => a ++ b) ""

/-- The value interpolated after "#SBATCH -a 0-" at launcher.py line 170.
The None branch is kept although __init__ never leaves the attribute None. -/
def slurm_array_bound (L : Launcher) : String :=
  match L.joblib_n_jobs with
  | none => Nat.repr (L.n_exp - 1)
  | some j => Nat.repr (L.n_exp / j)

/-- The execution_code block built at launcher.py lines 130-141: the
optional conda activation (raising, modelled none, when neither miniconda3
nor anaconda3 exists, line 137) followed by the python invocation line. -/
def execution_code? (L : Launcher) (env : HostEnv) : Option String :=
  if pyTruthy L.conda_env then
    if env.miniconda3_exists then
      some ("eval \"$(/home/" ++ env.user ++ "/miniconda3/bin/conda shell.bash hook)\"\n"
        ++ "conda activate " ++ L.conda_env.getD "" ++ "\n\n"
        ++ "python " ++ L.python_file ++ ".py \\")
    else if env.anaconda3_exists then
      some ("eval \"$(/home/" ++ env.user ++ "/anaconda/bin/conda shell.bash hook)\"\n"
        ++ "conda activate " ++ L.conda_env.getD "" ++ "\n\n"
        ++ "python " ++ L.python_file ++ ".py \\")
    else none
  else some ("python3  " ++ L.python_file ++ ".py \\")

/-- The joblib_code line built at launcher.py lines 148-158.  The attribute
is never None after __init__; a None would raise a TypeError in the
comparison at line 151 and is modelled none, as is the unreachable trailing
raise at line 158. -/
def joblib_code? (L : Launcher) : Option String :=
  match L.joblib_n_jobs with
  | none => none
  | some nj =>
      let jc := "\t\t--joblib-n-jobs $3  "
      if L.n_exp < nj then some (jc ++ "--joblib-n-seeds $2 \n")
      else if L.n_exp % nj = 0 then some (jc ++ "--joblib-n-seeds $3 \n")
      else some (jc ++ "--joblib-n-seeds $\x7bJOBLIB_SEEDS\x7d \n")

/-- Launcher.generate_slurm (launcher.py lines 104-191), rendering the
submission script.  The stray debug print of gres at line 117 is not
traced. -/
def generate_slurm (L : Launcher) (env : HostEnv) : Option String :=
  let project_name_option :=
    if pyTruthy L.project_name then "#SBATCH -A " ++ L.project_name.getD "" ++ "\n" else ""
  let partition_option :=
    if pyTruthy L.partition then "#SBATCH -p " ++ L.partition.getD "" ++ "\n" else ""
  let begin_option :=
    if pyTruthy L.begin_ then "#SBATCH --begin=" ++ L.begin_.getD "" ++ "\n" else ""
  let gres_option :=
    if pyTruthy L.gres then "#SBATCH --gres=" ++ L.gres.getD "" ++ "\n" else ""
  let joblib_seed :=
    "aux=$(( $SLURM_ARRAY_TASK_ID + 1 ))\naux=$(( $aux * $3 ))\nif (( $aux <= $2 ))\nthen\n  JOBLIB_SEEDS=$3\nelse\n  JOBLIB_SEEDS=$(( $2 % $3 ))\nfi\n"
  let result_dir_code :=
    if L.use_underscore_argparse then "\t\t--results_dir $1" else "\t\t--results-dir $1"
  (execution_code? L env).bind (fun execution_code =>
    (joblib_code? L).map (fun joblib_code =>
      (("#!/usr/bin/env bash\n\n###############################################################################\n# SLURM Configurations\n\n# Optional parameters\n"
          ++ project_name_option ++ partition_option ++ begin_option ++ gres_option
          ++ "\n# Mandatory parameters\n#SBATCH -J " ++ L.exp_name ++ "\n")
         ++ ("#SBATCH -a 0-" ++ slurm_array_bound L ++ "\n")
         ++ ("#SBATCH -t " ++ L.duration
          ++ "\n#SBATCH -n 1\n#SBATCH -c " ++ Nat.repr L.n_cores
          ++ "\n#SBATCH --mem-per-cpu=" ++ Nat.repr L.memory
          ++ "\n#SBATCH -o " ++ joinPath L.exp_dir_slurm ++ "/%A_%a.out"
          ++ "\n#SBATCH -e " ++ joinPath L.exp_dir_slurm ++ "/%A_%a.err"
          ++ "\n\n###############################################################################\n# Your PROGRAM call starts here\necho \"Starting Job $SLURM_JOB_ID, Index $SLURM_ARRAY_TASK_ID\"\n\n# Joblib seed\n"
          ++ joblib_seed
          ++ "\n# Program specific arguments\n"
          ++ execution_code
          ++ "\n\t\t$\x7b@:4\x7d \\\n\t\t--seed $SLURM_ARRAY_TASK_ID \\\n"
          ++ result_dir_code ++ " \\\n"
          ++ joblib_code ++ "\n"))))

/-- Observable side effects of a dispatch. -/
inductive Effect where
  | makedirs : List String → Effect
  | writeFile : List String → String → Effect
  | importModule : String → Effect
  | printLine : String → Effect
  | runCommand : String → Effect
  | callExperiment : Dict → Effect
deriving DecidableEq

/-- Recognizer for printed-line effects. -/
def isPrintLine : Effect → Bool
  | .printLine _ => true
  | _ => false

/-- Launcher.save_slurm (launcher.py lines 193-203): render the script,
create the slurm directory, write slurm_<exp_name>.sh, return its path. -/
def save_slurm (L : Launcher) (env : HostEnv) : Option (List Effect × List String) :=
  (generate_slurm L env).map (fun code =>
    let full_path := L.exp_dir_slurm ++ ["slurm_" ++ L.exp_name ++ ".sh"]
    ([Effect.makedirs L.exp_dir_slurm, Effect.writeFile full_path code], full_path))

/-- Python str() of the stored joblib_n_jobs attribute. -/
def optNatStr : Option Nat → String
  | none => "None"
  | some j => Nat.repr j

/-- Launcher._run_slurm (launcher.py lines 205-222): save the script, then
for every experiment build the sbatch command and print it (test) or run it. -/
def run_slurm (L : Launcher) (env : HostEnv) (test : Bool) : Option (List Effect) :=
  (save_slurm L env).map (fun pre =>
    pre.1 ++ L.experiment_list.map (fun exp =>
      let command_line_arguments := convert_to_command_line exp L.use_underscore_argparse
      let command_line_arguments :=
        if L.default_params.isEmpty then command_line_arguments
        else command_line_arguments ++ " "
          ++ convert_to_command_line L.default_params L.use_underscore_argparse
      let results_dir := generate_results_dir L.exp_dir_slurm exp none
      let command := "sbatch " ++ joinPath pre.2 ++ " " ++ joinPath results_dir ++ " "
        ++ Nat.repr L.n_exp ++ " " ++ optNatStr L.joblib_n_jobs ++ " " ++ command_line_arguments
      if test then Effect.printLine command else Effect.runCommand command))

/-- The line printed per task by the test branch of Launcher._run_joblib
(launcher.py lines 238-241), including its chain of str replacements. -/
def test_line (L : Launcher) (exp : Dict) (i : Nat) : String :=
  let default_params :=
    if L.default_params.isEmpty then ""
    else pyReplace (pyReplace (pyReplace (pyReplace (pyStrDict L.default_params)
      "\x7b" ", ") "\x7d" ", ") ": " "=") "\x27" ""
  let params :=
    pyReplace (pyReplace (pyReplace (pyReplace (pyStrDict exp) "\x7b" "(") "\x7d" "") ": " "=") "\x27" ""
  "experiment" ++ params ++ default_params ++ "seed=" ++ Nat.repr i ++ ", results_dir="
    ++ joinPath (generate_results_dir L.exp_dir_local exp none) ++ ")"

/-- Sampling without replacement, the model of
np.random.choice(np.arange(1, max_seeds), size=n, replace=False) at
launcher.py line 263: each entropy word selects the next element from the
remaining population; none when the population is exhausted. -/
def sampleWithoutReplacement : List Nat → Nat → List Nat → Option (List Nat)
  | _, 0, _ => some []
  | pop, Nat.succ n, entropy =>
      if hp : 0 < pop.length then
        match sampleWithoutReplacement (pop.eraseIdx (entropy.headD 0 % pop.length)) n entropy.tail with
        | some rest =>
            some (pop.get ⟨entropy.headD 0 % pop.length, Nat.mod_lt _ hp⟩ :: rest)
        | none => none
      else none

/-- The seed list computed at launcher.py lines 262-265: sequential
np.arange(n_exp), or n_exp distinct draws from np.arange(1, max_seeds). -/
def Launcher.seedsFor (L : Launcher) (entropy : List Nat) : Option (List Nat) :=
  if L.randomize_seeds then
    sampleWithoutReplacement (List.range' 1 (L.max_seeds - 1)) L.n_exp entropy
  else
    some (List.range L.n_exp)

/-- The loop of Launcher._generate_exp_params (launcher.py lines 266-271):
one shared dict is updated in place across all (experiment, seed) pairs and
a snapshot is taken at each yield (joblib unpacks the kwargs as the
generator is consumed). -/
def exp_params_loop (exp_dir_local : List String) : Dict → List (Dict × Nat) → List Dict
  | _, [] => []
  | d, (exp, seed) :: rest =>
      let d₁ := dictUpdate d exp
      let d₂ := dictSet d₁ "seed" (Value.vInt (Int.ofNat seed))
      let d₃ := dictSet d₂ "results_dir"
        (Value.vStr (joinPath (generate_results_dir exp_dir_local exp (some seed))))
      d₃ :: exp_params_loop exp_dir_local d₃ rest

/-- Launcher._generate_exp_params (launcher.py lines 259-271): params_dict
is the callable signature-defaults dict passed in by _run_joblib; the
default params are merged into it, seeds are drawn, and the product loop
yields the task dicts. -/
def generate_exp_params (L : Launcher) (params_dict : Dict) (entropy : List Nat) : Option (List Dict) :=
  (L.seedsFor entropy).map (fun seeds =>
    exp_params_loop L.exp_dir_local (dictUpdate params_dict L.default_params)
      (pyProduct L.experiment_list seeds))

/-- Launcher._run_joblib (launcher.py lines 224-246): makedirs only outside
test mode, then the unconditional import of the target module, then either
the printed dry-run lines or the parallel experiment calls. -/
def run_joblib (L : Launcher) (test : Bool) (params_dict : Dict) (entropy : List Nat) :
    Option (List Effect) :=
  let pre : List Effect := if test then [] else [Effect.makedirs L.exp_dir_local]
  if test then
    some (pre ++ Effect.importModule L.python_file ::
      (pyProduct L.experiment_list (List.range L.n_exp)).map (fun p =>
        Effect.printLine (test_line L p.1 p.2)))
  else
    (generate_exp_params L params_dict entropy).map (fun tasks =>
      pre ++ Effect.importModule L.python_file :: tasks.map Effect.callExperiment)

/-- Launcher.run (launcher.py lines 96-102): dispatch locally or to slurm,
then clear the experiment list; nothing else on the instance changes.
A dispatch that raises (none) never reaches the clearing line. -/
def Launcher.run (L : Launcher) (local_ test : Bool) (env : HostEnv) (params_dict : Dict)
    (entropy : List Nat) : Option (Launcher × List Effect) :=
  (if local_ then run_joblib L test params_dict entropy else run_slurm L env test).map
    (fun eff => ({ L with experiment_list := [] }, eff))

/-- The per-task mapping the spec describes: a base dict with the seed and
the seeded results directory assigned on top. -/
def refTask (exp_dir_local : List String) (base exp : Dict) (s : Nat) : Dict :=
  dictSet (dictSet base "seed" (Value.vInt (Int.ofNat s))) "results_dir"
    (Value.vStr (joinPath (generate_results_dir exp_dir_local exp (some s))))

/-- The records up to index i merged, in order, into a starting dict. -/
def mergedPrefix (base : Dict) (records : List Dict) (i : Nat) : Dict :=
  (records.take (i + 1)).foldl dictUpdate base

/-- A host with no scratch directory and no conda installation. -/
def envA : HostEnv :=
  { user := "u", now := "_T", scratch_is_dir := false,
    miniconda3_exists := false, anaconda3_exists := false }

/-- Placeholder launcher used only as the default of Option.getD. -/
def dummyLauncher : Launcher :=
  { exp_name := "", python_file := "", n_exp := 0, n_cores := 0, memory := 0,
    duration := "", project_name := none, joblib_n_jobs := none, conda_env := none,
    gres := none, partition := none, begin_ := none, experiment_list := [],
    default_params := [], exp_dir_local := [], exp_dir_slurm := [],
    use_underscore_argparse := false, max_seeds := 0, randomize_seeds := false }

/-- A two-key record exercising the nested-versus-flat divergence. -/
def exC1 : Dict := [("a", Value.vInt 1), ("b", Value.vInt 2)]

/-- Launcher state with one record and one default parameter, as after
init plus add_experiment plus add_default_params. -/
def LC3 : Launcher :=
  { exp_name := "e3", python_file := "t", n_exp := 3, n_cores := 1, memory := 2000,
    duration := "0-24:00:00", project_name := none, joblib_n_jobs := some 1,
    conda_env := none, gres := none, partition := none, begin_ := none,
    experiment_list := [[("a", Value.vInt 1)]], default_params := [("d", Value.vStr "b")],
    exp_dir_local := ["./logs", "e3"], exp_dir_slurm := ["./logs", "e3"],
    use_underscore_argparse := false, max_seeds := 10000, randomize_seeds := false }

/-- The live-mode slurm trace of LC3, evaluated from the model. -/
def effsW3 : List Effect := (run_slurm LC3 envA false).getD []

/-- Constructor arguments with three experiments and every default kept. -/
def argsC4 : LauncherArgs := { exp_name := "e4", python_file := "t", n_exp := 3 }

/-- The launcher built from argsC4 on host envA. -/
def LW4 : Launcher := (Launcher.init argsC4 envA).getD dummyLauncher

/-- The slurm script rendered for LW4. -/
def sW4 : String := (generate_slurm LW4 envA).getD ""

/-- Launcher with two records sharing a dispatch, one replication. -/
def LC5 : Launcher :=
  { exp_name := "e5", python_file := "t", n_exp := 1, n_cores := 1, memory := 2000,
    duration := "0-24:00:00", project_name := none, joblib_n_jobs := some 1,
    conda_env := none, gres := none, partition := none, begin_ := none,
    experiment_list := [[("a", Value.vInt 1), ("b", Value.vInt 2)], [("a", Value.vInt 3)]],
    default_params := [], exp_dir_local := ["./logs", "e5"], exp_dir_slurm := ["./logs", "e5"],
    use_underscore_argparse := false, max_seeds := 10000, randomize_seeds := false }

/-- The two task dicts LC5 dispatches, in order. -/
def outC5 : List Dict :=
  [[("a", Value.vInt 1), ("b", Value.vInt 2), ("seed", Value.vInt 0),
    ("results_dir", Value.vStr "./logs/e5/a_1/b_2/0")],
   [("a", Value.vInt 3), ("b", Value.vInt 2), ("seed", Value.vInt 0),
    ("results_dir", Value.vStr "./logs/e5/a_3/0")]]

/-- Launcher with randomized seeds, three replications, max_seeds five. -/
def LC6 : Launcher :=
  { exp_name := "e6", python_file := "t", n_exp := 3, n_cores := 1, memory := 2000,
    duration := "0-24:00:00", project_name := none, joblib_n_jobs := some 1,
    conda_env := none, gres := none, partition := none, begin_ := none,
    experiment_list := [], default_params := [], exp_dir_local := ["./logs", "e6"],
    exp_dir_slurm := ["./logs", "e6"], use_underscore_argparse := false,
    max_seeds := 5, randomize_seeds := true }

/-- Launcher with one record and one replication for the local dry run. -/
def LC7 : Launcher :=
  { exp_name := "e7", python_file := "test", n_exp := 1, n_cores := 1, memory := 2000,
    duration := "0-24:00:00", project_name := none, joblib_n_jobs := some 1,
    conda_env := none, gres := none, partition := none, begin_ := none,
    experiment_list := [[("a", Value.vInt 1)]], default_params := [],
    exp_dir_local := ["./logs", "e7"], exp_dir_slurm := ["./logs", "e7"],
    use_underscore_argparse := false, max_seeds := 10000, randomize_seeds := false }

/-- The local test-mode trace of LC7. -/
def trC7 : List Effect :=
  [Effect.importModule "test",
   Effect.printLine "experiment(a=1seed=0, results_dir=./logs/e7/a_1)"]

/-- Constructor arguments whose max_seeds is below n_exp. -/
def argsC10 : LauncherArgs :=
  { exp_name := "ez", python_file := "t", n_exp := 3, max_seeds := 2 }

/-- The launcher built from argsC10 on host envA. -/
def LW10 : Launcher := (Launcher.init argsC10 envA).getD dummyLauncher

theorem dictGet?_append (d₁ d₂ : Dict) (k : String) :
    dictGet? (d₁ ++ d₂) k =
      match dictGet? d₁ k with
      | some v => some v
      | none => dictGet? d₂ k := by
  induction d₁ with
  | nil => rfl
  | cons p t ih =>
      by_cases h : p.1 = k
      · simp [dictGet?, h]
      · simp [dictGet?, h, ih]

theorem dictGet?_map_set (d : Dict) (k : String) (v : Value) (κ : String) :
    dictGet? (d.map (fun p => if p.1 = k then (k, v) else p)) κ =
      if κ = k then (if (dictGet? d k).isSome then some v else none)
      else dictGet? d κ := by
  induction d with
  | nil => by_cases h : κ = k <;> simp [dictGet?, h]
  | cons p t ih =>
      by_cases hpk : p.1 = k
      · by_cases hκ : κ = k
        · subst hκ
          simp [dictGet?, hpk]
        · have hκ' : ¬(k = κ) := fun h => hκ h.symm
          simp [dictGet?, hpk, hκ, hκ', ih]
      · by_cases hpκ : p.1 = κ
        · have hκk : ¬(κ = k) := fun h => hpk (hpκ.trans h)
          simp [dictGet?, hpk, hpκ, hκk]
        · by_cases hκ : κ = k
          · subst hκ
            simp [dictGet?, hpk, hpκ, ih]
          · simp [dictGet?, hpk, hpκ, hκ, ih]

theorem dictGet?_set (d : Dict) (k : String) (v : Value) (κ : String) :
    dictGet? (dictSet d k v) κ = if κ = k then some v else dictGet? d κ := by
  unfold dictSet
  by_cases h : (dictGet? d k).isSome
  · rw [if_pos h, dictGet?_map_set]
    by_cases hκ : κ = k <;> simp [hκ, h]
  · have hn : dictGet? d k = none := by
      cases hd : dictGet? d k
      · rfl
      · rw [hd] at h
        simp at h
    rw [if_neg h, dictGet?_append]
    by_cases hκ : κ = k
    · subst hκ
      rw [hn]
      simp [dictGet?]
    · have hκ' : ¬(k = κ) := fun h => hκ h.symm
      cases hd : dictGet? d κ <;> simp [dictGet?, hκ, hκ', hd]

theorem dictGet?_update (d e : Dict) (κ : String) :
    dictGet? (dictUpdate d e) κ =
      match lastGet? e κ with
      | some v => some v
      | none => dictGet? d κ := by
  induction e generalizing d with
  | nil => rfl
  | cons p t ih =>
      have hcons : lastGet? (p :: t) κ =
          match lastGet? t κ with
          | some v => some v
          | none => if p.1 = κ then some p.2 else none := rfl
      show dictGet? (dictUpdate (dictSet d p.1 p.2) t) κ = _
      rw [ih, hcons]
      cases hl : lastGet? t κ with
      | some v => simp [hl]
      | none =>
          simp only [hl]
          rw [dictGet?_set]
          by_cases hκ : κ = p.1
          · simp [hκ]
          · have hκ' : ¬(p.1 = κ) := fun h => hκ h.symm
            simp [hκ, hκ']

theorem dictEquiv_refl (d : Dict) : dictEquiv d d := fun _ => rfl

theorem dictEquiv_trans {a b c : Dict} (h₁ : dictEquiv a b) (h₂ : dictEquiv b c) :
    dictEquiv a c := fun k => (h₁ k).trans (h₂ k)

theorem dictEquivExcept_refl (ks : List String) (d : Dict) : dictEquivExcept ks d d :=
  fun _ _ => rfl

theorem dictEquiv_except {ks : List String} {a b : Dict} (h : dictEquiv a b) :
    dictEquivExcept ks a b := fun k _ => h k

theorem dictEquivExcept_trans {ks : List String} {a b c : Dict}
    (h₁ : dictEquivExcept ks a b) (h₂ : dictEquivExcept ks b c) :
    dictEquivExcept ks a c := fun k hk => (h₁ k hk).trans (h₂ k hk)

theorem dictEquivExcept_update {ks : List String} {d e : Dict} (x : Dict)
    (h : dictEquivExcept ks d e) :
    dictEquivExcept ks (dictUpdate d x) (dictUpdate e x) := by
  intro k hk
  rw [dictGet?_update, dictGet?_update]
  cases lastGet? x k
  · exact h k hk
  · rfl

theorem dictUpdate_idem (e x : Dict) :
    dictEquiv (dictUpdate (dictUpdate e x) x) (dictUpdate e x) := by
  intro k
  rw [dictGet?_update]
  cases hl : lastGet? x k
  · rfl
  · rw [dictGet?_update, hl]

theorem refTask_congr {a b : Dict} (edl : List String) (exp : Dict) (s : Nat)
    (h : dictEquiv a b) : dictEquiv (refTask edl a exp s) (refTask edl b exp s) := by
  intro k
  unfold refTask
  rw [dictGet?_set, dictGet?_set, dictGet?_set, dictGet?_set]
  by_cases h₁ : k = "results_dir"
  · simp [h₁]
  · by_cases h₂ : k = "seed" <;> simp [h₁, h₂, h k]

theorem refTask_congr_except {a b : Dict} (edl : List String) (exp : Dict) (s : Nat)
    (h : dictEquivExcept ["seed", "results_dir"] a b) :
    dictEquiv (refTask edl a exp s) (refTask edl b exp s) := by
  intro k
  unfold refTask
  rw [dictGet?_set, dictGet?_set, dictGet?_set, dictGet?_set]
  by_cases h₁ : k = "results_dir"
  · simp [h₁]
  · by_cases h₂ : k = "seed"
    · simp [h₁, h₂]
    · have := h k (by simp [h₁, h₂])
      simp [h₁, h₂, this]

theorem refTask_except (edl : List String) (d exp : Dict) (s : Nat) :
    dictEquivExcept ["seed", "results_dir"] (refTask edl d exp s) d := by
  intro k hk
  simp only [List.mem_cons, List.mem_singleton, not_or] at hk
  unfold refTask
  rw [dictGet?_set, dictGet?_set]
  simp [hk.1, hk.2]

theorem nthD_append_left {α : Type} (l₁ l₂ : List α) (n : Nat) (d : α)
    (h : n < l₁.length) : nthD (l₁ ++ l₂) n d = nthD l₁ n d := by
  induction l₁ generalizing n with
  | nil => simp at h
  | cons a t ih =>
      cases n with
      | zero => rfl
      | succ m =>
          show nthD (t ++ l₂) m d = nthD t m d
          exact ih m (by simpa using h)

theorem nthD_append_right {α : Type} (l₁ l₂ : List α) (n : Nat) (d : α) :
    nthD (l₁ ++ l₂) (l₁.length + n) d = nthD l₂ n d := by
  induction l₁ with
  | nil => simp
  | cons a t ih => simpa [List.length_cons, Nat.succ_add, nthD] using ih

theorem pyProduct_length {α β : Type} (xs : List α) (ys : List β) :
    (pyProduct xs ys).length = xs.length * ys.length := by
  induction xs with
  | nil => simp [pyProduct]
  | cons x t ih =>
      simp [pyProduct, ih]
      ring

theorem sample_length : ∀ (n : Nat) (pop entropy s : List Nat),
    sampleWithoutReplacement pop n entropy = some s → s.length = n := by
  intro n
  induction n with
  | zero =>
      intro pop e s h
      unfold sampleWithoutReplacement at h
      cases h
      rfl
  | succ m ih =>
      intro pop e s h
      unfold sampleWithoutReplacement at h
      split at h
      · split at h
        · cases h
          simp [ih _ _ _ (by assumption)]
        · cases h
      · cases h

theorem sample_mem : ∀ (n : Nat) (pop entropy s : List Nat),
    sampleWithoutReplacement pop n entropy = some s → ∀ x ∈ s, x ∈ pop := by
  intro n
  induction n with
  | zero =>
      intro pop e s h
      unfold sampleWithoutReplacement at h
      cases h
      simp
  | succ m ih =>
      intro pop e s h
      unfold sampleWithoutReplacement at h
      split at h
      · split at h
        · cases h
          intro x hx
          rcases List.mem_cons.mp hx with hx | hx
          · subst hx
            exact List.get_mem pop _ _
          · exact List.eraseIdx_subset _ _ (ih _ _ _ (by assumption) x hx)
        · cases h
      · cases h

theorem get_not_mem_eraseIdx {l : List Nat} (i : Fin l.length) (h : l.Nodup) :
    l.get i ∉ l.eraseIdx i.1 := by
  intro hm
  rw [List.mem_eraseIdx_iff_getElem] at hm
  obtain ⟨j, hj, hne, hje⟩ := hm
  simp only [List.get_eq_getElem] at hje
  exact hne (List.Nodup.getElem_inj_iff h |>.mp hje)

theorem sample_nodup : ∀ (n : Nat) (pop entropy s : List Nat), pop.Nodup →
    sampleWithoutReplacement pop n entropy = some s → s.Nodup := by
  intro n
  induction n with
  | zero =>
      intro pop e s _ h
      unfold sampleWithoutReplacement at h
      cases h
      exact List.nodup_nil
  | succ m ih =>
      intro pop e s hnd h
      unfold sampleWithoutReplacement at h
      split at h
      · split at h
        · cases h
          refine List.nodup_cons.mpr ⟨?_, ih _ _ _ (hnd.eraseIdx _) (by assumption)⟩
          intro hmem
          exact get_not_mem_eraseIdx _ hnd
            (sample_mem _ _ _ _ (by assumption) _ hmem)
        · cases h
      · cases h

theorem sample_total : ∀ (n : Nat) (pop entropy : List Nat), n ≤ pop.length →
    ∃ s, sampleWithoutReplacement pop n entropy = some s := by
  intro n
  induction n with
  | zero =>
      intro pop e _
      exact ⟨[], rfl⟩
  | succ m ih =>
      intro pop e hn
      have hp : 0 < pop.length := Nat.lt_of_lt_of_le (Nat.succ_pos m) hn
      have hi : e.headD 0 % pop.length < pop.length := Nat.mod_lt _ hp
      have hlen : m ≤ (pop.eraseIdx (e.headD 0 % pop.length)).length := by
        rw [List.length_eraseIdx, if_pos hi]
        omega
      obtain ⟨rest, hr⟩ := ih (pop.eraseIdx (e.headD 0 % pop.length)) e.tail hlen
      refine ⟨pop.get ⟨e.headD 0 % pop.length, hi⟩ :: rest, ?_⟩
      unfold sampleWithoutReplacement
      rw [dif_pos hp, hr]

theorem loop_record (edl : List String) (exp : Dict) :
    ∀ (ss : List Nat) (rest : List (Dict × Nat)) (d e : Dict),
      dictEquivExcept ["seed", "results_dir"] d e →
      ∃ snaps d',
        exp_params_loop edl d (ss.map (fun s => (exp, s)) ++ rest) =
          snaps ++ exp_params_loop edl d' rest ∧
        snaps.length = ss.length ∧
        (∀ j, j < ss.length →
          dictEquiv (nthD snaps j []) (refTask edl (dictUpdate e exp) exp (nthD ss j 0))) ∧
        dictEquivExcept ["seed", "results_dir"] d'
          (if ss.isEmpty then e else dictUpdate e exp) := by
  intro ss
  induction ss with
  | nil =>
      intro rest d e h
      exact ⟨[], d, rfl, rfl, fun j hj => absurd hj (by simp), by simpa using h⟩
  | cons s ss ih =>
      intro rest d e h
      have hstep : exp_params_loop edl d ((s :: ss).map (fun s => (exp, s)) ++ rest) =
          refTask edl (dictUpdate d exp) exp s ::
            exp_params_loop edl (refTask edl (dictUpdate d exp) exp s)
              (ss.map (fun s => (exp, s)) ++ rest) := rfl
      have hupd : dictEquivExcept ["seed", "results_dir"] (dictUpdate d exp) (dictUpdate e exp) :=
        dictEquivExcept_update exp h
      have hst : dictEquivExcept ["seed", "results_dir"]
          (refTask edl (dictUpdate d exp) exp s) (dictUpdate e exp) :=
        dictEquivExcept_trans (refTask_except edl (dictUpdate d exp) exp s) hupd
      obtain ⟨snaps, d', heq, hlen, hsnap, hfin⟩ :=
        ih rest (refTask edl (dictUpdate d exp) exp s) (dictUpdate e exp) hst
      refine ⟨refTask edl (dictUpdate d exp) exp s :: snaps, d', ?_, ?_, ?_, ?_⟩
      · rw [hstep, heq]
        rfl
      · simp [hlen]
      · intro j hj
        cases j with
        | zero => exact refTask_congr_except edl exp s hupd
        | succ m =>
            have hm : m < ss.length := by simpa using hj
            exact dictEquiv_trans (hsnap m hm)
              (refTask_congr edl exp _ (dictUpdate_idem e exp))
      · by_cases hss : ss = []
        · subst hss
          simpa using hfin
        · have hbe : ss.isEmpty = false := by
            cases ss with
            | nil => exact absurd rfl hss
            | cons a t => rfl
          simp only [hbe, if_false, Bool.false_eq_true, List.isEmpty_cons] at hfin ⊢
          exact dictEquivExcept_trans hfin (dictEquiv_except (dictUpdate_idem e exp))

theorem loop_all (edl : List String) (ss : List Nat) (hss : ss ≠ []) :
    ∀ (records : List Dict) (d e : Dict),
      dictEquivExcept ["seed", "results_dir"] d e →
      (exp_params_loop edl d (pyProduct records ss)).length = records.length * ss.length ∧
      ∀ i j, i < records.length → j < ss.length →
        dictEquiv (nthD (exp_params_loop edl d (pyProduct records ss)) (i * ss.length + j) [])
          (refTask edl (mergedPrefix e records i) (nthD records i []) (nthD ss j 0)) := by
  intro records
  induction records with
  | nil =>
      intro d e h
      exact ⟨by simp [pyProduct, exp_params_loop], fun i j hi _ => absurd hi (by simp)⟩
  | cons r rs ih =>
      intro d e h
      obtain ⟨snaps, d', heq, hlen, hsnap, hfin⟩ := loop_record edl r ss (pyProduct rs ss) d e h
      have hbe : ss.isEmpty = false := by
        cases ss with
        | nil => exact absurd rfl hss
        | cons a t => rfl
      have hfin' : dictEquivExcept ["seed", "results_dir"] d' (dictUpdate e r) := by
        simpa [hbe] using hfin
      obtain ⟨ihlen, ihsnap⟩ := ih d' (dictUpdate e r) hfin'
      have heq' : exp_params_loop edl d (pyProduct (r :: rs) ss) =
          snaps ++ exp_params_loop edl d' (pyProduct rs ss) := heq
      constructor
      · rw [heq', List.length_append, hlen, ihlen, List.length_cons]
        ring
      · intro i j hi hj
        rw [heq']
        cases i with
        | zero =>
            have hidx : 0 * ss.length + j = j := by omega
            rw [hidx, nthD_append_left _ _ _ _ (by rw [hlen]; exact hj)]
            exact hsnap j hj
        | succ i' =>
            have hidx : (i' + 1) * ss.length + j = snaps.length + (i' * ss.length + j) := by
              rw [hlen]
              ring
            rw [hidx, nthD_append_right]
            have hi' : i' < rs.length := by simpa using hi
            exact ihsnap i' j hi' hj

theorem foldl_append_map {α β : Type} (f : α → β) :
    ∀ (l : List α) (acc : List β),
      l.foldl (fun a p => a ++ [f p]) acc = acc ++ l.map f := by
  intro l
  induction l with
  | nil => intro acc; simp
  | cons x t ih =>
      intro acc
      rw [List.foldl_cons, ih]
      simp

/-- C1 (amended): for every ParameterRecord, generating its result path in
the only mode the code has appends to the root exactly one path segment per
key, in insertion order, each segment exactly "key_value"; the segment count
grows by the record size. -/
theorem C1_result_path_nested (root : List String) (exp : Dict) :
    generate_results_dir root exp none = root ++ exp.map (fun p => p.1 ++ "_" ++ p.2.pyStr) ∧
    (generate_results_dir root exp none).length = root.length + exp.length := by
  have h := foldl_append_map (fun p : String × Value => p.1 ++ "_" ++ p.2.pyStr) exp root
  have h' : generate_results_dir root exp none = root ++ exp.map (fun p => p.1 ++ "_" ++ p.2.pyStr) := h
  refine ⟨h', ?_⟩
  rw [h', List.length_append, List.length_map]

/-- C1 counterexample: on a two-key record the code produces the two nested
segments, which is not the single flat segment the claim describes for the
flat mode; no configuration flag of the Launcher selects a flat layout. -/
theorem C1_flat_mode_counterexample :
    generate_results_dir ["logs"] exC1 none = ["logs", "a_1", "b_2"] ∧
    generateResultPath_flat ["logs"] exC1 = ["logs", "a_1_b_2"] ∧
    generate_results_dir ["logs"] exC1 none ≠ generateResultPath_flat ["logs"] exC1 :=
  ⟨rfl, rfl, by decide⟩

theorem pad2_two_digits : ∀ n, n < 100 → (pad2 n).length = 2 := by decide

theorem repr_one_digit : ∀ n, n < 10 → (Nat.repr n).length = 1 := by decide

/-- C8: for hours, minutes and seconds below one hundred the duration
formatter returns str(days), a dash, then the three fields zero-padded to
exactly two digits and joined by colons; days is not padded; in particular
toDuration(0,5,3,0) is 0-05:03:00 and toDuration(1,0,0,0) is 1-00:00:00. -/
theorem C8_duration_format (d h m s : Nat) (hh : h < 100) (hm : m < 100) (hs : s < 100) :
    to_duration d h m s = Nat.repr d ++ "-" ++ pad2 h ++ ":" ++ pad2 m ++ ":" ++ pad2 s ∧
    (pad2 h).length = 2 ∧ (pad2 m).length = 2 ∧ (pad2 s).length = 2 ∧
    (d < 10 → (Nat.repr d).length = 1) ∧
    to_duration 0 5 3 0 = "0-05:03:00" ∧ to_duration 1 0 0 0 = "1-00:00:00" :=
  ⟨rfl, pad2_two_digits h hh, pad2_two_digits m hm, pad2_two_digits s hs,
    fun hd => repr_one_digit d hd, rfl, rfl⟩

/-- C8 witness: the theorem applied at the inputs of the two spec examples. -/
theorem C8_witness :
    ((5 : Nat) < 100 ∧ (3 : Nat) < 100 ∧ (0 : Nat) < 100) ∧
    (to_duration 0 5 3 0 = Nat.repr 0 ++ "-" ++ pad2 5 ++ ":" ++ pad2 3 ++ ":" ++ pad2 0 ∧
     (pad2 5).length = 2 ∧ (pad2 3).length = 2 ∧ (pad2 0).length = 2 ∧
     ((0 : Nat) < 10 → (Nat.repr 0).length = 1) ∧
     to_duration 0 5 3 0 = "0-05:03:00" ∧ to_duration 1 0 0 0 = "1-00:00:00") :=
  ⟨⟨by decide, by decide, by decide⟩,
   C8_duration_format 0 5 3 0 (by decide) (by decide) (by decide)⟩

/-- C6: when dispatch draws its seeds, sequential mode yields exactly the
list 0..n_exp-1 (so the seed set is exactly the naturals below n_exp), and
randomized mode yields n_exp pairwise-distinct seeds, each at least 1 and
strictly below the stored max-seed bound, for every entropy stream. -/
theorem C6_seed_assignment (L : Launcher) (entropy : List Nat) (seeds : List Nat)
    (h : L.seedsFor entropy = some seeds) :
    (L.randomize_seeds = false →
      seeds = List.range L.n_exp ∧ ∀ s, s ∈ seeds ↔ s < L.n_exp) ∧
    (L.randomize_seeds = true →
      seeds.length = L.n_exp ∧ seeds.Nodup ∧ ∀ s ∈ seeds, 1 ≤ s ∧ s < L.max_seeds) := by
  constructor
  · intro hr
    unfold Launcher.seedsFor at h
    simp only [hr, Bool.false_eq_true, if_false, Option.some.injEq] at h
    subst h
    exact ⟨rfl, fun s => List.mem_range⟩
  · intro hr
    unfold Launcher.seedsFor at h
    simp only [hr, if_true] at h
    refine ⟨sample_length _ _ _ _ h,
      sample_nodup _ _ _ _ (List.nodup_range' 1 (L.max_seeds - 1) 1 Nat.one_pos) h, ?_⟩
    intro s hs
    have hmem := sample_mem _ _ _ _ h s hs
    rw [List.mem_range'_1] at hmem
    exact ⟨hmem.1, by omega⟩

/-- C6 witness: the randomized branch evaluated on a concrete launcher with
three replications and max-seed bound five. -/
theorem C6_witness :
    LC6.seedsFor [] = some [1, 2, 3] ∧
    (([1, 2, 3] : List Nat).length = LC6.n_exp ∧ ([1, 2, 3] : List Nat).Nodup ∧
      ∀ s ∈ ([1, 2, 3] : List Nat), 1 ≤ s ∧ s < LC6.max_seeds) :=
  ⟨rfl, (C6_seed_assignment LC6 [] [1, 2, 3] rfl).2 rfl⟩

/-- C7 (amended): local test-mode dispatch produces exactly one import of
the target module followed by one printed line per ParameterRecord and
replication index, in order, and no other effect; the number of printed
lines is the record count times n_exp. -/
theorem C7_test_mode_trace (L : Launcher) (params_dict : Dict) (entropy : List Nat) :
    run_joblib L true params_dict entropy =
      some (Effect.importModule L.python_file ::
        (pyProduct L.experiment_list (List.range L.n_exp)).map (fun p =>
          Effect.printLine (test_line L p.1 p.2))) ∧
    ((pyProduct L.experiment_list (List.range L.n_exp)).map (fun p =>
        Effect.printLine (test_line L p.1 p.2))).length =
      L.experiment_list.length * L.n_exp := by
  constructor
  · rfl
  · rw [List.length_map, pyProduct_length, List.length_range]

/-- C7 counterexample: the test-mode trace of a concrete launcher starts
with the import of the external module, an effect that is not a printed
line, refuting that test mode performs no module loading. -/
theorem C7_counterexample :
    run_joblib LC7 true [] [] = some trC7 ∧ trC7.all isPrintLine = false :=
  ⟨by rfl, rfl⟩

/-- C9: whenever dispatch returns normally, in any mode, the returned state
has an empty ParameterRecord list and exactly the DefaultParameterRecord it
started with; nothing else of the launcher changes. -/
theorem C9_run_clears_experiments (L : Launcher) (local_ test : Bool) (env : HostEnv)
    (params_dict : Dict) (entropy : List Nat) (L' : Launcher) (eff : List Effect)
    (h : L.run local_ test env params_dict entropy = some (L', eff)) :
    L'.experiment_list = [] ∧ L'.default_params = L.default_params ∧
    L' = { L with experiment_list := [] } := by
  unfold Launcher.run at h
  cases hd : (if local_ then run_joblib L test params_dict entropy else run_slurm L env test) with
  | none =>
      rw [hd] at h
      cases h
  | some eff0 =>
      rw [hd] at h
      cases h
      exact ⟨rfl, rfl, rfl⟩

/-- C9 witness: the theorem applied to a concrete local test dispatch. -/
theorem C9_witness :
    LC7.run true true envA [] [] = some ({ LC7 with experiment_list := [] }, trC7) ∧
    ({ LC7 with experiment_list := [] } : Launcher).experiment_list = [] ∧
    ({ LC7 with experiment_list := [] } : Launcher).default_params = LC7.default_params :=
  ⟨by rfl, (C9_run_clears_experiments LC7 true true envA [] [] _ trC7 (by rfl)).1,
    (C9_run_clears_experiments LC7 true true envA [] [] _ trC7 (by rfl)).2.1⟩

/-- C10: every constructed launcher stores a max-seed bound strictly above
n_exp (raised to n_exp + 1 when needed), so the randomized population
1..max_seeds-1 has at least n_exp elements and drawing n_exp distinct seeds
succeeds for every entropy stream. -/
theorem C10_max_seeds_invariant (a : LauncherArgs) (env : HostEnv) (L : Launcher)
    (h : Launcher.init a env = some L) :
    L.max_seeds = (if a.n_exp ≥ a.max_seeds then a.n_exp + 1 else a.max_seeds) ∧
    L.n_exp < L.max_seeds ∧
    L.n_exp ≤ (List.range' 1 (L.max_seeds - 1)).length ∧
    ∀ entropy, ∃ seeds,
      sampleWithoutReplacement (List.range' 1 (L.max_seeds - 1)) L.n_exp entropy = some seeds := by
  unfold Launcher.init at h
  split at h
  · cases h
  · cases h
    have hle : a.n_exp ≤ (if a.n_exp ≥ a.max_seeds then a.n_exp + 1 else a.max_seeds) - 1 := by
      split <;> omega
    refine ⟨rfl, ?_, ?_, ?_⟩
    · show a.n_exp < (if a.n_exp ≥ a.max_seeds then a.n_exp + 1 else a.max_seeds)
      split <;> omega
    · rw [List.length_range']
      exact hle
    · intro entropy
      apply sample_total
      rw [List.length_range']
      exact hle

/-- C10 witness: the theorem applied to a constructor call whose max_seeds
is below n_exp, exercising the adjustment. -/
theorem C10_witness :
    Launcher.init argsC10 envA = some LW10 ∧
    (LW10.max_seeds =
        (if argsC10.n_exp ≥ argsC10.max_seeds then argsC10.n_exp + 1 else argsC10.max_seeds) ∧
     LW10.n_exp < LW10.max_seeds ∧
     LW10.n_exp ≤ (List.range' 1 (LW10.max_seeds - 1)).length ∧
     ∀ entropy, ∃ seeds,
       sampleWithoutReplacement (List.range' 1 (LW10.max_seeds - 1)) LW10.n_exp entropy =
         some seeds) :=
  ⟨rfl, C10_max_seeds_invariant argsC10 envA LW10 rfl⟩

/-- C2: for every parameter mapping and either flag style, the serialized
command line is exactly the concatenation, over the keys in insertion
order, of the claimed per-entry tokens each followed by one space: nothing
for a False boolean, a bare flag for a True boolean, flag then value
otherwise, the key dashed unless the underscore-argparse flag is set. -/
theorem C2_flag_serialization (exp : Dict) (u : Bool) :
    convert_to_command_line exp u = flags_spec u exp := by
  suffices h : ∀ (l : Dict) (acc : String),
      l.foldl (fun command_line p =>
        let new_command :=
          if u then "--" ++ p.1 ++ " " else "--" ++ pyReplace p.1 "_" "-" ++ " "
        let new_command :=
          match p.2 with
          | .vBool b => if b then new_command else ""
          | v => new_command ++ v.pyStr ++ " "
        command_line ++ new_command) acc = acc ++ flags_spec u l by
    have h0 := h exp ""
    unfold convert_to_command_line
    rw [h0]
    cases hfs : flags_spec u exp with
    | mk data => rfl
  intro l
  induction l with
  | nil =>
      intro acc
      simp [flags_spec, String.append_empty]
  | cons p t ih =>
      intro acc
      rw [List.foldl_cons, ih, String.append_assoc]
      congr 1
      unfold flags_spec flag_tokens
      simp only [List.map_cons, List.flatten_cons, List.map_append, List.foldr_append]
      cases hv : p.2 with
      | vBool b =>
          cases b <;> cases u <;>
            simp [String.append_empty, String.append_assoc]
      | vInt n =>
          cases u <;> simp [Value.pyStr, String.append_assoc]
      | vStr s =>
          cases u <;> simp [Value.pyStr, String.append_assoc]

/-- C3 (amended): in cluster mode every dispatch that returns writes the
script once and then emits, per ParameterRecord in order, exactly one
command whose tokens are sbatch, the script path, the result directory of
the record, str(n_exp), str(joblib_n_jobs), then the serialized flags of
the record followed, when the DefaultParameterRecord is non-empty, by one
space and its serialized flags; the command is printed in test mode and
executed otherwise. -/
theorem C3_submission_commands (L : Launcher) (env : HostEnv) (test : Bool)
    (effs : List Effect) (h : run_slurm L env test = some effs) :
    ∃ code, generate_slurm L env = some code ∧
      effs = [Effect.makedirs L.exp_dir_slurm,
              Effect.writeFile (L.exp_dir_slurm ++ ["slurm_" ++ L.exp_name ++ ".sh"]) code]
        ++ L.experiment_list.map (fun exp =>
            let flags := convert_to_command_line exp L.use_underscore_argparse
            let flags :=
              if L.default_params.isEmpty then flags
              else flags ++ " "
                ++ convert_to_command_line L.default_params L.use_underscore_argparse
            let command := "sbatch "
              ++ joinPath (L.exp_dir_slurm ++ ["slurm_" ++ L.exp_name ++ ".sh"]) ++ " "
              ++ joinPath (generate_results_dir L.exp_dir_slurm exp none) ++ " "
              ++ Nat.repr L.n_exp ++ " " ++ optNatStr L.joblib_n_jobs ++ " " ++ flags
            if test then Effect.printLine command else Effect.runCommand command) := by
  unfold run_slurm save_slurm at h
  cases hg : generate_slurm L env with
  | none =>
      rw [hg] at h
      cases h
  | some code =>
      rw [hg] at h
      simp only [Option.map_some'] at h
      cases h
      exact ⟨code, rfl, rfl⟩

/-- C3 counterexample: the concrete submission command carries the tokens
3 and 1 (str(n_exp) and str(joblib_n_jobs)) between the result directory
and the serialized flags, so the flags do not follow the result directory
directly as the claim states. -/
theorem C3_counterexample :
    (run_slurm LC3 envA true).map (fun effs => nthD effs 2 (Effect.printLine "")) =
      some (Effect.printLine "sbatch ./logs/e3/slurm_e3.sh ./logs/e3/a_1 3 1 --a 1  --d b ") ∧
    ("sbatch ./logs/e3/slurm_e3.sh ./logs/e3/a_1 3 1 --a 1  --d b " : String) ≠
      "sbatch ./logs/e3/slurm_e3.sh ./logs/e3/a_1 --a 1  --d b " :=
  ⟨by rfl, by decide⟩

/-- C3 witness: the amended theorem applied to a concrete live dispatch. -/
theorem C3_witness :
    run_slurm LC3 envA false = some effsW3 ∧
    (∃ code, generate_slurm LC3 envA = some code ∧
      effsW3 = [Effect.makedirs LC3.exp_dir_slurm,
                Effect.writeFile (LC3.exp_dir_slurm ++ ["slurm_" ++ LC3.exp_name ++ ".sh"]) code]
        ++ LC3.experiment_list.map (fun exp =>
            let flags := convert_to_command_line exp LC3.use_underscore_argparse
            let flags :=
              if LC3.default_params.isEmpty then flags
              else flags ++ " "
                ++ convert_to_command_line LC3.default_params LC3.use_underscore_argparse
            let command := "sbatch "
              ++ joinPath (LC3.exp_dir_slurm ++ ["slurm_" ++ LC3.exp_name ++ ".sh"]) ++ " "
              ++ joinPath (generate_results_dir LC3.exp_dir_slurm exp none) ++ " "
              ++ Nat.repr LC3.n_exp ++ " " ++ optNatStr LC3.joblib_n_jobs ++ " " ++ flags
            if false then Effect.printLine command else Effect.runCommand command)) :=
  ⟨by rfl, C3_submission_commands LC3 envA false effsW3 (by rfl)⟩

/-- C4 (amended): for every launcher the constructor produces, the rendered
script declares the array directive as 0 to n_exp divided (integer
division) by the stored joblib_n_jobs; the constructor replaces a None
joblib_n_jobs by 1 before this point, so the n_exp minus one branch of
line 170 is unreachable. -/
theorem C4_array_directive (a : LauncherArgs) (env : HostEnv) (L : Launcher) (s : String)
    (hinit : Launcher.init a env = some L) (hgen : generate_slurm L env = some s) :
    slurm_array_bound L = Nat.repr (L.n_exp / (L.joblib_n_jobs.getD 1)) ∧
    ∃ pre post, s = pre ++ ("#SBATCH -a 0-" ++ slurm_array_bound L ++ "\n") ++ post := by
  have hjn : L.joblib_n_jobs =
      some (match a.joblib_n_jobs with | none => 1 | some j => j) := by
    unfold Launcher.init at hinit
    split at hinit
    · cases hinit
    · cases hinit
      rfl
  constructor
  · unfold slurm_array_bound
    rw [hjn]
    rfl
  · unfold generate_slurm at hgen
    cases hec : execution_code? L env with
    | none =>
        rw [hec] at hgen
        cases hgen
    | some ec =>
        rw [hec] at hgen
        rw [Option.some_bind] at hgen
        cases hjc : joblib_code? L with
        | none =>
            rw [hjc] at hgen
            cases hgen
        | some jc =>
            rw [hjc, Option.map_some'] at hgen
            cases hgen
            exact ⟨_, _, rfl⟩

/-- C4 counterexample: with n_exp three and the joblib worker count left
None, the rendered array bound is 3 (n_exp divided by the stored worker
count one), not the 2 the claim derives from n_exp minus one. -/
theorem C4_counterexample :
    Launcher.init argsC4 envA = some LW4 ∧
    slurm_array_bound LW4 = "3" ∧
    ("#SBATCH -a 0-3" : String) ≠ "#SBATCH -a 0-" ++ Nat.repr (argsC4.n_exp - 1) :=
  ⟨by rfl, by rfl, by decide⟩

/-- C4 witness: the amended theorem applied to the concrete launcher. -/
theorem C4_witness :
    Launcher.init argsC4 envA = some LW4 ∧ generate_slurm LW4 envA = some sW4 ∧
    (slurm_array_bound LW4 = Nat.repr (LW4.n_exp / (LW4.joblib_n_jobs.getD 1)) ∧
     ∃ pre post, sW4 = pre ++ ("#SBATCH -a 0-" ++ slurm_array_bound LW4 ++ "\n") ++ post) :=
  ⟨by rfl, by rfl, C4_array_directive argsC4 envA LW4 sW4 (by rfl) (by rfl)⟩

/-- C5 (amended): in local live dispatch the mapping passed for record i
and seed index j agrees, on every key, with the callable signature
defaults merged with the DefaultParameterRecord merged with records 0
through i in list order, with the seed and the seeded result directory of
record i assigned on top; the task count is records times seeds.  Keys of
records earlier in the list thus leak into the tasks of later records,
and the signature defaults always participate. -/
theorem C5_task_mapping (L : Launcher) (params_dict : Dict) (entropy : List Nat)
    (seeds : List Nat) (out : List Dict) (i j : Nat)
    (hseeds : L.seedsFor entropy = some seeds)
    (hout : generate_exp_params L params_dict entropy = some out)
    (hi : i < L.experiment_list.length) (hj : j < seeds.length) :
    out.length = L.experiment_list.length * seeds.length ∧
    dictEquiv (nthD out (i * seeds.length + j) [])
      (refTask L.exp_dir_local
        (mergedPrefix (dictUpdate params_dict L.default_params) L.experiment_list i)
        (nthD L.experiment_list i []) (nthD seeds j 0)) := by
  have hss : seeds ≠ [] := by
    intro he
    subst he
    exact absurd hj (by simp)
  unfold generate_exp_params at hout
  rw [hseeds] at hout
  simp only [Option.map_some'] at hout
  cases hout
  obtain ⟨hlen, hsnap⟩ := loop_all L.exp_dir_local seeds hss L.experiment_list
    (dictUpdate params_dict L.default_params) (dictUpdate params_dict L.default_params)
    (dictEquivExcept_refl _ _)
  exact ⟨hlen, hsnap i j hi hj⟩

/-- C5 counterexample: dispatching two records in one session, the second
task mapping still carries the key b of the first record with its value,
while the mapping the claim prescribes for the second record has no such
key: the shared dict leaks entries across records. -/
theorem C5_counterexample :
    generate_exp_params LC5 [] [] = some outC5 ∧
    dictGet? (nthD outC5 1 []) "b" = some (Value.vInt 2) ∧
    dictGet? (dictSet (dictSet (dictUpdate LC5.default_params [("a", Value.vInt 3)]) "seed"
        (Value.vInt 0)) "results_dir" (Value.vStr "./logs/e5/a_3/0")) "b" = none :=
  ⟨by rfl, by rfl, by rfl⟩

/-- C5 witness: the amended theorem applied to the concrete two-record
dispatch at record index one, seed index zero. -/
theorem C5_witness :
    LC5.seedsFor [] = some [0] ∧ generate_exp_params LC5 [] [] = some outC5 ∧
    (outC5.length = LC5.experiment_list.length * ([0] : List Nat).length ∧
     dictEquiv (nthD outC5 (1 * ([0] : List Nat).length + 0) [])
       (refTask LC5.exp_dir_local
         (mergedPrefix (dictUpdate [] LC5.default_params) LC5.experiment_list 1)
         (nthD LC5.experiment_list 1 []) (nthD ([0] : List Nat) 0 0))) :=
  ⟨by rfl, by rfl,
   C5_task_mapping LC5 [] [] [0] outC5 1 0 (by rfl) (by rfl) (by decide) (by decide)⟩
